import Mathlib

/-!
Shallow embedding of the documentation-manager core:
the document API routes (list/create in `src/app/api/documents/route.ts`,
get/update/delete in the `[id]` route), the auth library
(`src/lib/auth.ts`: bcrypt/jwt wrappers, `getAuthUser`, `requireAuth`),
and the store schema from the Prisma migration.
-/

namespace DocMgr

/-- A user row as selected by `getAuthUser` (id, name, email, role);
`role` is a plain string in storage (TEXT column) and is compared
against the literal "ADMIN" in the routes. -/
structure User where
  id : Nat
  name : String
  email : String
  role : String
  deriving DecidableEq, Repr

/-- A document row (migration: id TEXT, title, content, status TEXT
default TODO, priority TEXT default MEDIUM, timestamps, authorId). -/
structure Document where
  id : String
  title : String
  content : String
  status : String
  priority : String
  createdAt : Nat
  updatedAt : Nat
  authorId : Nat
  deriving DecidableEq, Repr

/-- The document table, as the routes see it through Prisma. -/
abbrev Store := List Document

/-- `prisma.document.findUnique({ where: { id } })`. -/
def findUnique (s : Store) (docId : String) : Option Document :=
  s.find? (fun d => d.id == docId)

/-- The `z.enum(['TODO','IN_PROGRESS','DONE'])` value set. -/
def statusValues : List String := ["TODO", "IN_PROGRESS", "DONE"]

/-- The `z.enum(['LOW','MEDIUM','HIGH','URGENT'])` value set. -/
def priorityValues : List String := ["LOW", "MEDIUM", "HIGH", "URGENT"]

/-- `z.string().min(1).max(200)` applied to the title. -/
def titleValid (t : String) : Bool := 1 ≤ t.length && t.length ≤ 200

/-- `z.string().min(1)` applied to the content. -/
def contentValid (c : String) : Bool := 1 ≤ c.length

/-- An optional `z.enum(values)` field: absent passes, present must be
a member of the enumeration. -/
def optEnumValid (values : List String) (v : Option String) : Bool :=
  match v with
  | none => true
  | some x => values.contains x

/-- JSON body of a create request; `none` models an absent field. -/
structure CreateBody where
  title : Option String
  content : Option String
  status : Option String
  priority : Option String
  deriving DecidableEq, Repr

/-- Parsed create data (`result.data` of `createDocumentSchema.safeParse`). -/
structure CreateData where
  title : String
  content : String
  status : Option String
  priority : Option String
  deriving DecidableEq, Repr

/-- `createDocumentSchema.safeParse`: title required (1..200 chars),
content required (non-empty), status/priority optional enums. -/
def createSafeParse (b : CreateBody) : Option CreateData :=
  match b.title, b.content with
  | some t, some c =>
      if titleValid t && contentValid c
          && optEnumValid statusValues b.status
          && optEnumValid priorityValues b.priority
      then some ⟨t, c, b.status, b.priority⟩
      else none
  | _, _ => none

/-- JSON body of an update request; every field optional. -/
structure UpdateBody where
  title : Option String
  content : Option String
  status : Option String
  priority : Option String
  deriving DecidableEq, Repr

/-- `updateDocumentSchema.safeParse`: each provided field validated as
in create; an absent field passes. -/
def updateSafeParse (b : UpdateBody) : Option UpdateBody :=
  if (match b.title with | none => true | some t => titleValid t)
      && (match b.content with | none => true | some c => contentValid c)
      && optEnumValid statusValues b.status
      && optEnumValid priorityValues b.priority
  then some b
  else none

/-- Outcome of a route handler, keyed by the HTTP status it maps to. -/
inductive ApiResult (α : Type) where
  | ok (a : α)
  | unauthorized
  | validationError
  | notFound
  | forbidden
  deriving DecidableEq, Repr

/-- `POST /api/documents`: auth, schema parse (400 on failure),
defaults `status = 'TODO'`, `priority = 'MEDIUM'`, then
`prisma.document.create` (Prisma sets both timestamps to now). -/
def POST (user : Option User) (b : CreateBody) (freshId : String)
    (now : Nat) (s : Store) : ApiResult Document × Store :=
  match user with
  | none => (.unauthorized, s)
  | some u =>
      match createSafeParse b with
      | none => (.validationError, s)
      | some data =>
          let st := data.status.getD "TODO"
          let pr := data.priority.getD "MEDIUM"
          let doc : Document :=
            ⟨freshId, data.title, data.content, st, pr, now, now, u.id⟩
          (.ok doc, doc :: s)

/-- JS truthiness of `searchParams.get(k)`: `null` and the empty
string are falsy, so only a non-empty value enters the where clause. -/
def truthyParam (q : Option String) : Option String :=
  match q with
  | none => none
  | some x => if x = "" then none else some x

/-- The `where` object the list handler hands to
`prisma.document.findMany` — built from the raw query values with no
enum validation. -/
def buildWhere (statusQ priorityQ : Option String) :
    Option String × Option String :=
  (truthyParam statusQ, truthyParam priorityQ)

/-- Row predicate of the findMany where clause (AND semantics). -/
def matchesWhere (w : Option String × Option String) (d : Document) : Bool :=
  (match w.1 with | none => true | some st => d.status == st)
  && (match w.2 with | none => true | some pr => d.priority == pr)

/-- `GET /api/documents`: auth, then findMany with the raw query
filters; no validation of the filter values. -/
def GETlist (user : Option User) (statusQ priorityQ : Option String)
    (s : Store) : ApiResult (List Document) :=
  match user with
  | none => .unauthorized
  | some _ => .ok (s.filter (matchesWhere (buildWhere statusQ priorityQ)))

/-- `prisma.document.update({ data: result.data })`: provided fields
overwrite, absent fields keep their value, `@updatedAt` refreshes the
timestamp. -/
def applyPatch (d : Document) (b : UpdateBody) (now : Nat) : Document :=
  { d with
      title := b.title.getD d.title
      content := b.content.getD d.content
      status := b.status.getD d.status
      priority := b.priority.getD d.priority
      updatedAt := now }

/-- `PUT /api/documents/[id]`: auth, body parse (400), existence
(404), ownership `authorId !== user.id && role !== 'ADMIN'` (403),
then the update. -/
def PUT (user : Option User) (docId : String) (b : UpdateBody)
    (now : Nat) (s : Store) : ApiResult Document × Store :=
  match user with
  | none => (.unauthorized, s)
  | some u =>
      match updateSafeParse b with
      | none => (.validationError, s)
      | some data =>
          match findUnique s docId with
          | none => (.notFound, s)
          | some existing =>
              if existing.authorId != u.id && u.role != "ADMIN" then
                (.forbidden, s)
              else
                let updated := applyPatch existing data now
                (.ok updated,
                  s.map (fun d => if d.id == docId then updated else d))

/-- `DELETE /api/documents/[id]`: auth, existence (404), the same
ownership check as update (403), then `prisma.document.delete`. -/
def DELETE (user : Option User) (docId : String) (s : Store) :
    ApiResult Unit × Store :=
  match user with
  | none => (.unauthorized, s)
  | some u =>
      match findUnique s docId with
      | none => (.notFound, s)
      | some existing =>
          if existing.authorId != u.id && u.role != "ADMIN" then
            (.forbidden, s)
          else
            (.ok (), s.filter (fun d => d.id != docId))

/-- Result of the `requireAuth` guard: a user, or an error object
carrying the HTTP status (401 or 403). -/
inductive AuthResult where
  | ok (u : User)
  | err (status : Nat)
  deriving DecidableEq, Repr

/-- `requireAuth(roles?)` applied to the resolved user: `none` user
gives 401; then `if (roles && !roles.includes(user.role))` gives 403.
In JS an empty array is truthy, so a present-but-empty `roles` list
still runs the membership test (and denies everyone). -/
def requireAuth (roles : Option (List String)) (user : Option User) :
    AuthResult :=
  match user with
  | none => .err 401
  | some u =>
      match roles with
      | some rs => if rs.contains u.role then .ok u else .err 403
      | none => .ok u

/-- `const JWT_SECRET = process.env.JWT_SECRET || 'fallback-secret-key'`:
JS `||` falls back when the variable is unset or the empty string. -/
def jwtSecretOf (envSecret : Option String) : String :=
  match envSecret with
  | none => "fallback-secret-key"
  | some x => if x.isEmpty then "fallback-secret-key" else x

/-- Modelled from the spec: the Password Hasher output (bcrypt is a
library dependency, not code under src/). Spec §4.1: `hash` pairs a
fresh random salt with a digest; verification is deterministic and,
per the spec round-trip law, the digest under a fixed salt
distinguishes distinct passwords, so the digest is modelled as an
injective function of (salt, password). -/
structure PasswordHash where
  salt : Nat
  digest : Nat × String
  deriving DecidableEq, Repr

/-- Modelled from the spec: `hash(plaintext)`, with the fresh salt
made an explicit argument (the source draws it randomly per call). -/
def hashPassword (salt : Nat) (p : String) : PasswordHash :=
  ⟨salt, (salt, p)⟩

/-- Modelled from the spec: `verify(plaintext, hash)` recomputes the
digest under the stored salt and compares; total, never throws. -/
def verifyPassword (p : String) (h : PasswordHash) : Bool :=
  h.digest == (h.salt, p)

/-- The claims set embedded in a session token (`JWTPayload` in
src/lib/auth.ts). -/
structure JWTPayload where
  userId : Nat
  email : String
  role : String
  deriving DecidableEq, Repr

/-- `expiresIn: '7d'` in seconds. -/
def sevenDays : Nat := 7 * 24 * 60 * 60

/-- Modelled from the spec: a signed token (the jwt library is a
dependency, not code under src/). It carries the claims, the
expiration, and an integrity signature; the signature is modelled as
an injective MAC of (secret, claims, expiration), so altering any
component of a token without the secret breaks the check. -/
structure Token where
  payload : JWTPayload
  exp : Nat
  sig : String × JWTPayload × Nat
  deriving DecidableEq, Repr

/-- Modelled from the spec: `signToken` issues claims with a 7-day
expiry from issuance and signs them with the server secret. -/
def signToken (secret : String) (p : JWTPayload) (iat : Nat) : Token :=
  ⟨p, iat + sevenDays, (secret, p, iat + sevenDays)⟩

/-- Modelled from the spec: `verifyToken` returns the claims only if
the signature matches the token contents under the secret and the
token is unexpired; every failure is the explicit `none` (the source
wraps the library call in try/catch returning null). -/
def verifyToken (secret : String) (t : Token) (now : Nat) :
    Option JWTPayload :=
  if t.sig == (secret, t.payload, t.exp) && now < t.exp then
    some t.payload
  else
    none

/-- A concrete admin user for concrete evaluations. -/
def sampleAdmin : User := ⟨1, "Admin", "admin@example.com", "ADMIN"⟩

/-- A concrete non-admin user. -/
def sampleUser : User := ⟨2, "Bob", "bob@example.com", "USER"⟩

/-- A concrete stored document authored by user 2. -/
def sampleDoc : Document :=
  ⟨"doc1", "Server Maintenance Checklist", "steps", "TODO", "MEDIUM", 0, 0, 2⟩

/-- C3: the claim says no hardcoded fallback secret is ever used when
the configured secret is absent; the source line
`process.env.JWT_SECRET || 'fallback-secret-key'` does use one, so
with the environment variable unset the signing secret is the
hardcoded string — the code contradicts the spec-stated intent. -/
theorem jwtSecret_fallback_used :
    jwtSecretOf none = "fallback-secret-key" := rfl

/-- C2 counterexample: the claim says an empty `requiredRoles` set is
always allowed, but in JS an empty array is truthy, so
`requireAuth([])` runs the membership test and denies even an ADMIN
identity with 403. -/
theorem requireAuth_empty_roles_denies :
    requireAuth (some []) (some sampleAdmin) = .err 403 := rfl

/-- C2 amended: the guard denies with 403 exactly when `requiredRoles`
is given (even empty) and the identity's role is not a member; when
`requiredRoles` is absent every resolved identity is allowed. -/
theorem requireAuth_denies_iff (roles : Option (List String)) (u : User) :
    (requireAuth roles (some u) = .err 403 ↔
      ∃ rs, roles = some rs ∧ rs.contains u.role = false)
    ∧ requireAuth none (some u) = .ok u := by
  refine ⟨?_, rfl⟩
  cases roles with
  | none => simp [requireAuth]
  | some rs =>
      by_cases h : rs.contains u.role
      · simp [requireAuth, h]
      · simp [requireAuth, h]

/-- C2 amended witness: a USER identity against a given
requiredRoles list it is not in is denied 403; with requiredRoles
absent the same identity is allowed. -/
theorem requireAuth_denies_iff_witness :
    requireAuth (some ["ADMIN"]) (some sampleUser) = .err 403 ∧
    requireAuth none (some sampleUser) = .ok sampleUser :=
  ⟨(requireAuth_denies_iff (some ["ADMIN"]) sampleUser).1.mpr
      ⟨["ADMIN"], rfl, by decide⟩,
    (requireAuth_denies_iff none sampleUser).2⟩

/-- C5: password round-trip — verifying the hashed password with the
original plaintext succeeds, and with any other plaintext fails. -/
theorem password_roundtrip (salt : Nat) (p p2 : String) (hne : p2 ≠ p) :
    verifyPassword p (hashPassword salt p) = true ∧
    verifyPassword p2 (hashPassword salt p) = false := by
  refine ⟨by simp [verifyPassword, hashPassword], ?_⟩
  simp only [verifyPassword, hashPassword, beq_eq_false_iff_ne, ne_eq,
    Prod.mk.injEq, not_and]
  exact fun _ h2 => hne h2.symm

/-- C5 witness at a concrete password pair. -/
theorem password_roundtrip_witness :
    verifyPassword "hunter2" (hashPassword 0 "hunter2") = true ∧
    verifyPassword "hunter3" (hashPassword 0 "hunter2") = false :=
  password_roundtrip 0 "hunter2" "hunter3" (by decide)

/-- C6: token round-trip — a signed token verifies to exactly its
claims before the 7-day expiry, verifies to the explicit invalid
result `none` at or after expiry, and any token whose signature is
not the MAC of its own contents (as produced by altering any part of
a signed token without the secret) also verifies to `none`; `verifyToken`
is a total function, so no failure is a thrown exception. -/
theorem token_roundtrip (secret : String) (p : JWTPayload)
    (iat now : Nat) :
    (now < iat + sevenDays →
      verifyToken secret (signToken secret p iat) now = some p)
    ∧ (iat + sevenDays ≤ now →
      verifyToken secret (signToken secret p iat) now = none)
    ∧ (∀ t : Token, t.sig ≠ (secret, t.payload, t.exp) →
      verifyToken secret t now = none) := by
  refine ⟨fun h => ?_, fun h => ?_, fun t h => ?_⟩
  · simp [verifyToken, signToken, h]
  · simp [verifyToken, signToken, Nat.not_lt.mpr h]
  · simp [verifyToken, h]

/-- C6 witness: a concrete round-trip before expiry and the invalid
result at expiry. -/
theorem token_roundtrip_witness :
    verifyToken "s3cret" (signToken "s3cret" ⟨7, "a@b.c", "USER"⟩ 0) 1000 =
      some ⟨7, "a@b.c", "USER"⟩ ∧
    verifyToken "s3cret" (signToken "s3cret" ⟨7, "a@b.c", "USER"⟩ 0)
      sevenDays = none :=
  ⟨(token_roundtrip "s3cret" ⟨7, "a@b.c", "USER"⟩ 0 1000).1 (by decide),
   (token_roundtrip "s3cret" ⟨7, "a@b.c", "USER"⟩ 0 sevenDays).2.1
     (by simp [sevenDays])⟩

/-- The ownership condition of the PUT/DELETE routes is false exactly
when the requester is the author or an admin (here: the false case). -/
theorem ownCheck_false (u : User) (d : Document)
    (h : d.authorId = u.id ∨ u.role = "ADMIN") :
    (d.authorId != u.id && u.role != "ADMIN") = false := by
  cases h with
  | inl h => simp [h]
  | inr h => simp [h]

/-- The ownership condition of the PUT/DELETE routes holds when the
requester is neither the author nor an admin. -/
theorem ownCheck_true (u : User) (d : Document)
    (h1 : d.authorId ≠ u.id) (h2 : u.role ≠ "ADMIN") :
    (d.authorId != u.id && u.role != "ADMIN") = true := by
  simp only [Bool.and_eq_true, bne_iff_ne, ne_eq]
  exact ⟨h1, h2⟩

/-- C1: a requester who is neither the document's author nor an ADMIN
gets Forbidden from both update and delete; an author or an admin is
never rejected by the ownership check of either route — the rule is
the same conjunction in both handlers. -/
theorem ownership_rule (u : User) (d : Document) (s : Store)
    (b : UpdateBody) (now : Nat)
    (hd : findUnique s d.id = some d)
    (hb : updateSafeParse b = some b) :
    (u.id ≠ d.authorId ∧ u.role ≠ "ADMIN" →
      (PUT (some u) d.id b now s).1 = .forbidden ∧
      (DELETE (some u) d.id s).1 = .forbidden)
    ∧ ((u.id = d.authorId ∨ u.role = "ADMIN") →
      (PUT (some u) d.id b now s).1 ≠ .forbidden ∧
      (DELETE (some u) d.id s).1 ≠ .forbidden) := by
  constructor
  · rintro ⟨h1, h2⟩
    have hc := ownCheck_true u d (fun h => h1 h.symm) h2
    exact ⟨by simp [PUT, hb, hd, hc], by simp [DELETE, hd, hc]⟩
  · intro h
    have hc := ownCheck_false u d (h.imp Eq.symm id)
    exact ⟨by simp [PUT, hb, hd, hc], by simp [DELETE, hd, hc]⟩

/-- C1 witness: an ADMIN non-author passes the ownership check on
update, and a non-author non-admin is Forbidden on delete. -/
theorem ownership_rule_witness :
    (PUT (some sampleAdmin) "doc1" ⟨some "New", none, none, none⟩ 5
      [sampleDoc]).1 ≠ .forbidden ∧
    (DELETE (some ⟨3, "Eve", "eve@example.com", "USER"⟩) "doc1"
      [sampleDoc]).1 = .forbidden := by
  refine ⟨?_, ?_⟩
  · exact ((ownership_rule sampleAdmin sampleDoc [sampleDoc]
      ⟨some "New", none, none, none⟩ 5 (by decide) (by decide)).2
      (Or.inr (by decide))).1
  · exact ((ownership_rule ⟨3, "Eve", "eve@example.com", "USER"⟩
      sampleDoc [sampleDoc] ⟨some "New", none, none, none⟩ 5
      (by decide) (by decide)).1 ⟨by decide, by decide⟩).2

/-- C10: in the update route the body is parsed before the document
is looked up, so an invalid patch yields ValidationError for every
store and every id — also when the document is missing or the
requester would fail the ownership check — and the store is
unchanged. -/
theorem update_validates_first (u : User) (docId : String)
    (b : UpdateBody) (now : Nat) (s : Store)
    (hb : updateSafeParse b = none) :
    PUT (some u) docId b now s = (.validationError, s) := by
  simp [PUT, hb]

/-- C10 witness: an empty-title patch on a missing id in an empty
store is a ValidationError, not NotFound, and writes nothing. -/
theorem update_validates_first_witness :
    PUT (some sampleUser) "missing" ⟨some "", none, none, none⟩ 5 [] =
      (.validationError, []) :=
  update_validates_first sampleUser "missing"
    ⟨some "", none, none, none⟩ 5 [] (by decide)

/-- After `prisma.document.delete` (modelled as filtering the row
out), the id no longer resolves. -/
theorem findUnique_after_delete (s : Store) (docId : String) :
    findUnique (s.filter (fun d => d.id != docId)) docId = none := by
  refine List.find?_eq_none.mpr ?_
  intro d hd
  have h := (List.mem_filter.mp hd).2
  simp only [bne_iff_ne, ne_eq] at h
  simp [h]

/-- C9: delete of a missing id is NotFound and leaves the store
untouched; an authorized delete of an existing document succeeds and
an immediately repeated delete of the same id is NotFound, never a
silent second success. -/
theorem delete_idempotent_failure (u : User) (docId : String)
    (s : Store) :
    (findUnique s docId = none → DELETE (some u) docId s = (.notFound, s))
    ∧ (∀ d, findUnique s docId = some d →
        (d.authorId = u.id ∨ u.role = "ADMIN") →
      (DELETE (some u) docId s).1 = .ok () ∧
      (DELETE (some u) docId (DELETE (some u) docId s).2).1 =
        .notFound) := by
  constructor
  · intro h
    simp [DELETE, h]
  · intro d hd hauth
    have hc := ownCheck_false u d hauth
    constructor
    · simp [DELETE, hd, hc]
    · have h2 : (DELETE (some u) docId s).2 =
          s.filter (fun x => x.id != docId) := by
        simp [DELETE, hd, hc]
      rw [h2]
      simp [DELETE, findUnique_after_delete]

/-- C9 witness: the author deletes their document, the repeat call is
NotFound, and deleting an absent id leaves the store unchanged. -/
theorem delete_idempotent_failure_witness :
    (DELETE (some sampleUser) "doc1" [sampleDoc]).1 = .ok () ∧
    (DELETE (some sampleUser) "doc1"
      (DELETE (some sampleUser) "doc1" [sampleDoc]).2).1 = .notFound ∧
    DELETE (some sampleUser) "missing" [sampleDoc] =
      (.notFound, [sampleDoc]) := by
  obtain ⟨h1, h2⟩ :=
    (delete_idempotent_failure sampleUser "doc1" [sampleDoc]).2
      sampleDoc (by decide) (Or.inl (by decide))
  exact ⟨h1, h2,
    (delete_idempotent_failure sampleUser "missing" [sampleDoc]).1
      (by decide)⟩

/-- C8: a successful partial update keeps every field not present in
the patch (id, authorId, createdAt always; title, content, status,
priority when absent), and refreshes `updatedAt` to the strictly
later current time. -/
theorem update_frame (u : User) (d : Document) (s : Store)
    (b : UpdateBody) (now : Nat)
    (hd : findUnique s d.id = some d)
    (hb : updateSafeParse b = some b)
    (hauth : d.authorId = u.id ∨ u.role = "ADMIN")
    (htime : d.updatedAt < now) :
    ∃ d2, (PUT (some u) d.id b now s).1 = .ok d2 ∧
      d2.id = d.id ∧ d2.authorId = d.authorId ∧
      d2.createdAt = d.createdAt ∧
      (b.title = none → d2.title = d.title) ∧
      (b.content = none → d2.content = d.content) ∧
      (b.status = none → d2.status = d.status) ∧
      (b.priority = none → d2.priority = d.priority) ∧
      d.updatedAt < d2.updatedAt := by
  have hc := ownCheck_false u d hauth
  refine ⟨applyPatch d b now, by simp [PUT, hb, hd, hc], rfl, rfl, rfl,
    ?_, ?_, ?_, ?_, htime⟩
  all_goals intro h
  all_goals simp [applyPatch, h]

/-- C8 witness: a status-only patch by the author keeps title,
authorId and bumps updatedAt. -/
theorem update_frame_witness :
    ∃ d2, (PUT (some sampleUser) "doc1"
        ⟨none, none, some "IN_PROGRESS", none⟩ 5 [sampleDoc]).1 =
      .ok d2 ∧ d2.title = sampleDoc.title ∧
      d2.authorId = sampleDoc.authorId ∧
      sampleDoc.updatedAt < d2.updatedAt := by
  obtain ⟨d2, h1, _, h3, _, h5, _, _, _, h9⟩ :=
    update_frame sampleUser sampleDoc [sampleDoc]
      ⟨none, none, some "IN_PROGRESS", none⟩ 5 (by decide) (by decide)
      (Or.inl (by decide)) (by decide)
  exact ⟨d2, h1, h5 rfl, h3, h9⟩

/-- C7: with the optional enum fields valid-or-absent (they are typed
enum arguments in the spec's create signature), create succeeds
exactly when the title is present, non-empty and at most 200 chars
and the content is present and non-empty; any other body is a
ValidationError that writes nothing; and an omitted status or
priority defaults to TODO / MEDIUM on the created document. -/
theorem create_semantics (u : User) (b : CreateBody) (fid : String)
    (now : Nat) (s : Store)
    (hs : optEnumValid statusValues b.status = true)
    (hp : optEnumValid priorityValues b.priority = true) :
    ((∃ t c, b.title = some t ∧ titleValid t = true ∧
        b.content = some c ∧ contentValid c = true) →
      ∃ dc, (POST (some u) b fid now s).1 = .ok dc ∧
        (b.status = none → dc.status = "TODO") ∧
        (b.priority = none → dc.priority = "MEDIUM"))
    ∧ (¬ (∃ t c, b.title = some t ∧ titleValid t = true ∧
        b.content = some c ∧ contentValid c = true) →
      POST (some u) b fid now s = (.validationError, s)) := by
  constructor
  · rintro ⟨t, c, ht, htv, hc, hcv⟩
    have hparse : createSafeParse b = some ⟨t, c, b.status, b.priority⟩ := by
      simp [createSafeParse, ht, hc, htv, hcv, hs, hp]
    refine ⟨⟨fid, t, c, b.status.getD "TODO", b.priority.getD "MEDIUM",
      now, now, u.id⟩, by simp [POST, hparse], ?_, ?_⟩
    all_goals intro h
    all_goals simp [h]
  · intro hno
    have hparse : createSafeParse b = none := by
      cases hbt : b.title with
      | none => simp [createSafeParse, hbt]
      | some t =>
          cases hbc : b.content with
          | none => simp [createSafeParse, hbt, hbc]
          | some c =>
              have hnb : ¬ (titleValid t = true ∧ contentValid c = true) :=
                fun hb2 => hno ⟨t, c, hbt, hb2.1, hbc, hb2.2⟩
              have hf : (titleValid t && contentValid c) = false := by
                cases h1 : titleValid t with
                | false => rfl
                | true =>
                    cases h2 : contentValid c with
                    | false => rfl
                    | true => exact absurd ⟨h1, h2⟩ hnb
              simp [createSafeParse, hbt, hbc, hf]
    simp [POST, hparse]

/-- C7 witness: a minimal valid body with status and priority omitted
creates a document defaulted to TODO / MEDIUM; an empty-content body
is rejected without writing. -/
theorem create_semantics_witness :
    (∃ dc, (POST (some sampleUser) ⟨some "T", some "C", none, none⟩
        "doc9" 5 []).1 = .ok dc ∧ dc.status = "TODO" ∧
      dc.priority = "MEDIUM") ∧
    POST (some sampleUser) ⟨some "T", some "", none, none⟩ "doc9" 5 [] =
      (.validationError, []) := by
  obtain ⟨dc, h1, h2, h3⟩ :=
    (create_semantics sampleUser ⟨some "T", some "C", none, none⟩
      "doc9" 5 [] (by decide) (by decide)).1
      ⟨"T", "C", rfl, by decide, rfl, by decide⟩
  refine ⟨⟨dc, h1, h2 rfl, h3 rfl⟩, ?_⟩
  exact (create_semantics sampleUser ⟨some "T", some "", none, none⟩
    "doc9" 5 [] (by decide) (by decide)).2
    (by rintro ⟨t, c, ht, htv, hc, hcv⟩; cases hc; revert hcv; decide)

/-- An out-of-enum status or priority value makes the create schema
parse fail. -/
theorem createSafeParse_enum_invalid (b : CreateBody)
    (h : optEnumValid statusValues b.status = false ∨
      optEnumValid priorityValues b.priority = false) :
    createSafeParse b = none := by
  cases hbt : b.title with
  | none => simp [createSafeParse, hbt]
  | some t =>
      cases hbc : b.content with
      | none => simp [createSafeParse, hbt, hbc]
      | some c =>
          cases h with
          | inl h => simp [createSafeParse, hbt, hbc, h]
          | inr h => simp [createSafeParse, hbt, hbc, h]

/-- An out-of-enum status or priority value makes the update schema
parse fail. -/
theorem updateSafeParse_enum_invalid (b : UpdateBody)
    (h : optEnumValid statusValues b.status = false ∨
      optEnumValid priorityValues b.priority = false) :
    updateSafeParse b = none := by
  cases h with
  | inl h => simp [updateSafeParse, h]
  | inr h => simp [updateSafeParse, h]

/-- C4 counterexample: an out-of-enum `status` value in the list
query is not rejected — the raw string goes straight into the
findMany where clause and the route answers ok, never
ValidationError. -/
theorem list_filter_not_validated :
    statusValues.contains "BOGUS" = false ∧
    buildWhere (some "BOGUS") none = (some "BOGUS", none) ∧
    GETlist (some sampleAdmin) (some "BOGUS") none [sampleDoc] =
      .ok [] := by
  refine ⟨by decide, by decide, by decide⟩

/-- C4 amended: out-of-enum status/priority values are rejected with
ValidationError on the create body and the update patch (with no
write); the list route instead passes any non-empty filter value to
the store query unvalidated. -/
theorem enum_boundary (u : User) (s : Store) :
    (∀ b : CreateBody, (optEnumValid statusValues b.status = false ∨
        optEnumValid priorityValues b.priority = false) →
      ∀ fid now, POST (some u) b fid now s = (.validationError, s))
    ∧ (∀ b : UpdateBody, (optEnumValid statusValues b.status = false ∨
        optEnumValid priorityValues b.priority = false) →
      ∀ docId now, PUT (some u) docId b now s = (.validationError, s))
    ∧ (∀ q : String, q ≠ "" →
      GETlist (some u) (some q) none s =
        .ok (s.filter (matchesWhere (some q, none)))) := by
  refine ⟨fun b h fid now => ?_, fun b h docId now => ?_, fun q hq => ?_⟩
  · simp [POST, createSafeParse_enum_invalid b h]
  · simp [PUT, updateSafeParse_enum_invalid b h]
  · simp [GETlist, buildWhere, truthyParam, hq]

/-- C4 amended witness: a bad enum in a create body and in an update
patch each yield ValidationError; a bad enum in the list filter is
forwarded to the store query. -/
theorem enum_boundary_witness :
    POST (some sampleUser) ⟨some "T", some "C", some "BOGUS", none⟩
      "doc9" 5 [] = (.validationError, []) ∧
    PUT (some sampleUser) "doc1" ⟨none, none, none, some "NOPE"⟩ 5
      [sampleDoc] = (.validationError, [sampleDoc]) ∧
    GETlist (some sampleUser) (some "BOGUS") none [sampleDoc] =
      .ok ([sampleDoc].filter (matchesWhere (some "BOGUS", none))) := by
  refine ⟨(enum_boundary sampleUser []).1 _ (Or.inl (by decide)) "doc9" 5,
    (enum_boundary sampleUser [sampleDoc]).2.1 _ (Or.inr (by decide))
      "doc1" 5,
    (enum_boundary sampleUser [sampleDoc]).2.2 "BOGUS" (by decide)⟩

end DocMgr
